import Mathlib

/-!
Formal model of the my_chat gateway's relay and orchestration core.

The definitions below are shallow embeddings of the Python source files
`src/back/src/api/chat.py`, `src/back/src/services/vllm_client.py` and
`src/back/src/models/chat.py`.

Modelling conventions:
- Wall-clock readings (`time.time()`), `uuid.uuid4()` and `datetime.now()`
  are inputs from the environment; they are collected in a `RuntimeEnv`
  record, with elapsed time as a rational number of seconds.
- `json.loads` is Python standard library, outside this repository, so the
  stream decoder takes it as a parameter `parse : String → Option Chunk`;
  a malformed line is exactly one on which `parse` returns `none`.
- The relay generator `_stream_chat` is modelled as a function from the list
  of chunks successfully received from the backend (plus an optional failure
  that interrupts the stream after those chunks) to the list of frames it
  yields.  `Frame.metadata m` stands for the `[METADATA]json[/METADATA]`
  trailer string, `Frame.error msg` for `[ERROR]msg[/ERROR]`.
-/

namespace MyChat

/-- Python `round` rounds half to even; this is that rule on rationals,
rounding to the nearest integer. -/
def roundTiesEven (q : ℚ) : ℤ :=
  if q - ⌊q⌋ < 1 / 2 then ⌊q⌋
  else if 1 / 2 < q - ⌊q⌋ then ⌊q⌋ + 1
  else if 2 ∣ ⌊q⌋ then ⌊q⌋ else ⌊q⌋ + 1

/-- Python `round(x, 2)`: round to two decimal places, ties to even. -/
def round2 (q : ℚ) : ℚ := (roundTiesEven (q * 100) : ℚ) / 100

/-- The `Literal["user", "assistant", "system"]` role type of
`src/back/src/models/chat.py`. -/
inductive Role where
  | user
  | assistant
  | system
  deriving DecidableEq, Repr

/-- `ChatMessage` from `src/back/src/models/chat.py`.  The optional
`timestamp` field is never set by the relay code and is omitted. -/
structure ChatMessage where
  role : Role
  content : String
  deriving DecidableEq, Repr

/-- `ModelInfo` from `src/back/src/models/chat.py`. -/
structure ModelInfo where
  id : String
  name : String
  description : Option String
  max_context : Option Nat
  deriving DecidableEq, Repr

/-- Python truthiness test `not model` for an `Optional[str]`: true for
`None` and for the empty string. -/
def pyFalsyStr : Option String → Bool
  | none => true
  | some s => s.isEmpty

/-- Model resolution performed at the head of both
`VLLMClient.chat_completion` (src/back/src/services/vllm_client.py lines
82-87) and `VLLMClient.chat_completion_stream` (lines 150-156):

    if not model:
        models = await self.get_models()
        if not models:
            raise Exception("No models available")
        model = models[0].id

The result pairs the model id actually used for the upstream request with a
flag recording whether `get_models` was called; `catalog` is the list that
`get_models` would return. -/
def resolveModel (model : Option String) (catalog : List ModelInfo) :
    Except String (String × Bool) :=
  if pyFalsyStr model then
    match catalog with
    | [] => Except.error "No models available"
    | first :: _ => Except.ok (first.id, true)
  else
    Except.ok (model.getD "", false)

/-- Message composition shared by `_stream_chat` (src/back/src/api/chat.py
lines 66-88) and `_handle_chat` (lines 136-158): a user message, preceded by
a method-specific system prompt for `tuning`, `rag` and `websearch`. -/
def composeMessages (method : String) (message : String) : List ChatMessage :=
  let messages := [ChatMessage.mk Role.user message]
  if method = "tuning" then
    ChatMessage.mk Role.system
      "You are a fine-tuned model optimized for specific tasks." :: messages
  else if method = "rag" then
    ChatMessage.mk Role.system
      "You are a RAG-enabled assistant with access to additional context." :: messages
  else if method = "websearch" then
    ChatMessage.mk Role.system
      "You are an assistant with web search capabilities." :: messages
  else messages

/-- The `delta` object of a streaming chunk's first choice; `content` is
`none` when the key is absent or null. -/
structure Delta where
  content : Option String
  deriving DecidableEq, Repr

/-- One element of a streaming chunk's `choices` array; `delta` is `none`
when the key is absent (`choice.get("delta", {})` then yields `{}`). -/
structure ChunkChoice where
  delta : Option Delta
  deriving DecidableEq, Repr

/-- A decoded streaming chunk, as produced by `json.loads` on one event
line; a missing `choices` key is modelled as the empty list (both are falsy
and are treated identically by the relay). -/
structure Chunk where
  choices : List ChunkChoice
  deriving DecidableEq, Repr

/-- Python `line.startswith(pre)`: is `pre` a prefix of `line`? -/
def pyStartsWith (line pre : String) : Bool := pre.data.isPrefixOf line.data

/-- Python `s.strip()`: remove leading and trailing whitespace. -/
def pyStrip (s : String) : String :=
  String.mk (((s.data.dropWhile Char.isWhitespace).reverse.dropWhile Char.isWhitespace).reverse)

/-- The line loop of `VLLMClient.chat_completion_stream`
(src/back/src/services/vllm_client.py lines 183-195):

    async for line in response.aiter_lines():
        if line.startswith("data: "):
            data = line[6:]
            if data.strip() == "[DONE]":
                break
            try:
                chunk = json.loads(data)
                yield chunk
            except json.JSONDecodeError:
                continue

`parse` stands for `json.loads` restricted to chunk payloads; a line whose
payload fails to parse is skipped and the loop continues. -/
def decodeLines (parse : String → Option Chunk) : List String → List Chunk
  | [] => []
  | line :: rest =>
    if pyStartsWith line "data: " then
      let data := line.drop 6
      if pyStrip data = "[DONE]" then []
      else
        match parse data with
        | some chunk => chunk :: decodeLines parse rest
        | none => decodeLines parse rest
    else decodeLines parse rest

/-- The per-chunk content extraction of `_stream_chat`
(src/back/src/api/chat.py lines 105-108):

    if chunk.get("choices") and len(chunk["choices"]) > 0:
        delta = chunk["choices"][0].get("delta", {})
        if "content" in delta and delta["content"]:
            content_chunk = delta["content"]

The result is `some` of the fragment exactly when the first choice's delta
has a present, non-empty `content`. -/
def extractFragment (chunk : Chunk) : Option String :=
  match chunk.choices with
  | [] => none
  | choice :: _ =>
    match (choice.delta.getD (Delta.mk none)).content with
    | some s => if s = "" then none else some s
    | none => none

/-- Per-call environment inputs: the generated `uuid.uuid4()` string, the
`datetime.now().isoformat()` timestamp, and the elapsed wall-clock seconds
`end_time - start_time`. -/
structure RuntimeEnv where
  responseId : String
  timestamp : String
  elapsed : ℚ
  deriving DecidableEq, Repr

/-- The JSON object serialized inside the `[METADATA]...[/METADATA]`
trailer of `_stream_chat` (src/back/src/api/chat.py lines 118-124); these
are exactly its five keys, in order. -/
structure StreamMetadata where
  id : String
  method : Option String
  timestamp : String
  time_taken : ℚ
  total_chars : Nat
  deriving DecidableEq, Repr

/-- One frame yielded by the relay generator: a raw content fragment, the
metadata trailer, or the error trailer. -/
inductive Frame where
  | content (s : String)
  | metadata (m : StreamMetadata)
  | error (msg : String)
  deriving DecidableEq, Repr

/-- The chunk loop of `_stream_chat` (src/back/src/api/chat.py lines
99-112): yields each present non-empty delta content and accumulates it
into `full_content`.  Returns the yielded frames and the final
accumulator. -/
def streamLoop : List Chunk → String → List Frame × String
  | [], fullContent => ([], fullContent)
  | chunk :: rest, fullContent =>
    match extractFragment chunk with
    | some s =>
      let r := streamLoop rest (fullContent ++ s)
      (Frame.content s :: r.1, r.2)
    | none => streamLoop rest fullContent

/-- `_stream_chat` (src/back/src/api/chat.py lines 60-128) as a function of
the environment, the method, the chunks successfully received from the
backend, and an optional failure (`some e` when an exception with message
`e` interrupts the call after those chunks; composition/resolution/open
failures are the case `chunks = []`).  On success the loop runs to the end
and the metadata trailer follows; on failure the frames yielded so far are
followed by the error trailer from the `except` handler. -/
def streamChat (env : RuntimeEnv) (method : String) (chunks : List Chunk)
    (failure : Option String) : List Frame :=
  let r := streamLoop chunks ""
  match failure with
  | none =>
    r.1 ++ [Frame.metadata (StreamMetadata.mk env.responseId
      (if method ≠ "basic" then some method else none)
      env.timestamp (round2 env.elapsed) r.2.length)]
  | some e =>
    r.1 ++ [Frame.error ("스트리밍 중 오류가 발생했습니다: " ++ e)]

/-- Is this frame a raw content fragment? -/
def isContentFrame : Frame → Bool
  | Frame.content _ => true
  | _ => false

/-- Is this frame a terminal (metadata or error) frame? -/
def isTerminalFrame : Frame → Bool
  | Frame.content _ => false
  | _ => true

/-- Is this frame the metadata trailer? -/
def isMetadataFrame : Frame → Bool
  | Frame.metadata _ => true
  | _ => false

/-- Concatenation, in order, of a list of content fragments. -/
def concatFragments : List String → String
  | [] => ""
  | s :: rest => s ++ concatFragments rest

/-- `usage.completion_tokens` with the double default of
`response_data.get("usage", {})` and `usage.get("completion_tokens", 0)`
(src/back/src/api/chat.py lines 174-175). -/
structure Usage where
  completion_tokens : Nat
  deriving DecidableEq, Repr

/-- `choices[0].message` of a non-streaming completion body. -/
structure CompletionMessage where
  content : String
  deriving DecidableEq, Repr

/-- One element of a non-streaming completion body's `choices` array. -/
structure CompletionChoice where
  message : CompletionMessage
  deriving DecidableEq, Repr

/-- The parsed non-streaming completion body used by `_handle_chat`:
`choices`, optional `usage` and optional `model`. -/
structure CompletionData where
  choices : List CompletionChoice
  usage : Option Usage
  model : Option String
  deriving DecidableEq, Repr

/-- `ChatResponse` from `src/back/src/models/chat.py`. -/
structure ChatResponse where
  id : String
  role : Role
  content : String
  timestamp : String
  method : Option String
  model : Option String
  tokens_per_second : Option ℚ
  deriving DecidableEq, Repr

/-- `usage.get("completion_tokens", 0)` after
`usage = response_data.get("usage", {})`. -/
def usageTokens (data : CompletionData) : Nat :=
  (data.usage.getD (Usage.mk 0)).completion_tokens

/-- The response assembly of `_handle_chat` (src/back/src/api/chat.py lines
169-191) given the backend's parsed body: extract
`choices[0].message.content` (an empty `choices` array raises, which the
handler turns into the 500 `Chat processing failed` rejection), compute

    tokens_per_second = completion_tokens / time_taken if time_taken > 0 else 0

and build the `ChatResponse` with `round(tokens_per_second, 2)`. -/
def handleChat (env : RuntimeEnv) (method : String) (data : CompletionData) :
    Except String ChatResponse :=
  match data.choices with
  | [] => Except.error "Chat processing failed: list index out of range"
  | choice :: _ =>
    let content := choice.message.content
    let completion_tokens := usageTokens data
    let time_taken := env.elapsed
    let tokens_per_second : ℚ :=
      if time_taken > 0 then (completion_tokens : ℚ) / time_taken else 0
    Except.ok (ChatResponse.mk env.responseId Role.assistant content env.timestamp
      (if method ≠ "basic" then some method else none)
      data.model (some (round2 tokens_per_second)))

/-- A streaming chunk whose first choice's delta carries `s`. -/
def chunkOf (s : String) : Chunk :=
  Chunk.mk [ChunkChoice.mk (some (Delta.mk (some s)))]

/-- Wire payload of a chunk whose delta content is `"He"`. -/
def payloadHe : String :=
  "\x7b\"choices\":[\x7b\"delta\":\x7b\"content\":\"He\"\x7d\x7d]\x7d"

/-- Wire payload of a chunk whose delta content is `"llo"`. -/
def payloadLlo : String :=
  "\x7b\"choices\":[\x7b\"delta\":\x7b\"content\":\"llo\"\x7d\x7d]\x7d"

/-- Wire payload of a chunk whose delta content is the empty string. -/
def payloadEmpty : String :=
  "\x7b\"choices\":[\x7b\"delta\":\x7b\"content\":\"\"\x7d\x7d]\x7d"

/-- A concrete stand-in for `json.loads` on the payloads of the scenarios
below; every other string (for example `"\x7bnot-json"`) fails to parse. -/
def mockParse (s : String) : Option Chunk :=
  if s = payloadHe then some (chunkOf "He")
  else if s = payloadLlo then some (chunkOf "llo")
  else if s = payloadEmpty then some (chunkOf "")
  else none

/-- The event-stream lines of the end-to-end scenario: three chunks with
deltas `"He"`, `"llo"`, `""`, then the end-of-stream sentinel. -/
def scenarioLines : List String :=
  ["data: " ++ payloadHe, "data: " ++ payloadLlo, "data: " ++ payloadEmpty,
   "data: [DONE]"]

/-- A catalog entry with id `"m1"`. -/
def modelM1 : ModelInfo := ModelInfo.mk "m1" "m1" none none

/-- A catalog entry with id `"m2"`. -/
def modelM2 : ModelInfo := ModelInfo.mk "m2" "m2" none none

/-- A call environment whose backend call took 1000 seconds. -/
def envSlow : RuntimeEnv := RuntimeEnv.mk "id-slow" "2026-01-01T00:00:00" 1000

/-- A completion body with one token of usage and content `"ok"`. -/
def dataOneToken : CompletionData :=
  CompletionData.mk [CompletionChoice.mk (CompletionMessage.mk "ok")]
    (some (Usage.mk 1)) (some "m1")

/-- A call environment whose backend call took 2 seconds. -/
def envFast : RuntimeEnv := RuntimeEnv.mk "id-w" "2026-01-01T00:00:01" 2

/-- A completion body with four tokens of usage and content `"Hello!"`. -/
def dataFourTokens : CompletionData :=
  CompletionData.mk [CompletionChoice.mk (CompletionMessage.mk "Hello!")]
    (some (Usage.mk 4)) (some "m1")

/-- The response `_handle_chat` builds from `envFast` and
`dataFourTokens`: 4 tokens in 2 seconds give 2 tokens per second. -/
def respFourTokens : ChatResponse :=
  ChatResponse.mk "id-w" Role.assistant "Hello!" "2026-01-01T00:00:01" none
    (some "m1") (some 2)

/-! ## Helper lemmas -/

/-- The chunk loop yields one content frame per extracted fragment, in
order, and its accumulator ends as the concatenation of the fragments. -/
theorem streamLoop_eq (chunks : List Chunk) (acc : String) :
    streamLoop chunks acc =
      ((chunks.filterMap extractFragment).map Frame.content,
       acc ++ concatFragments (chunks.filterMap extractFragment)) := by
  induction chunks generalizing acc with
  | nil => simp [streamLoop, concatFragments]
  | cons c rest ih =>
    cases h : extractFragment c with
    | none =>
      simp [streamLoop, h, ih, List.filterMap_cons]
    | some s =>
      simp [streamLoop, h, ih, List.filterMap_cons, concatFragments,
        String.append_assoc]

/-- Rounding a nonnegative rational to the nearest integer (ties to even)
gives a nonnegative integer. -/
theorem roundTiesEven_nonneg (q : ℚ) (h : 0 ≤ q) : 0 ≤ roundTiesEven q := by
  have hf : (0 : ℤ) ≤ ⌊q⌋ := Int.floor_nonneg.mpr h
  unfold roundTiesEven
  split_ifs <;> omega

/-- For a nonnegative rational, nearest-integer rounding (ties to even)
gives zero exactly on `[0, 1/2]`. -/
theorem roundTiesEven_eq_zero_iff (q : ℚ) (h : 0 ≤ q) :
    roundTiesEven q = 0 ↔ q ≤ 1 / 2 := by
  have hf : (0 : ℤ) ≤ ⌊q⌋ := Int.floor_nonneg.mpr h
  have hle : (⌊q⌋ : ℚ) ≤ q := Int.floor_le q
  have hlt : q < ⌊q⌋ + 1 := Int.lt_floor_add_one q
  unfold roundTiesEven
  split_ifs with h1 h2 h3
  · constructor
    · intro h0
      rw [h0] at h1
      push_cast at h1
      linarith
    · intro hq
      have : ⌊q⌋ < 1 := by
        by_contra hge
        push_neg at hge
        have : ((1 : ℤ) : ℚ) ≤ (⌊q⌋ : ℚ) := by exact_mod_cast hge
        push_cast at this
        linarith
      omega
  · constructor
    · intro h0
      omega
    · intro hq
      exfalso
      have : (⌊q⌋ : ℚ) ≥ 0 := by exact_mod_cast hf
      linarith
  · have heq : q - ⌊q⌋ = 1 / 2 := by linarith
    constructor
    · intro h0
      rw [h0] at heq
      push_cast at heq
      linarith
    · intro hq
      have : ⌊q⌋ < 1 := by
        by_contra hge
        push_neg at hge
        have : ((1 : ℤ) : ℚ) ≤ (⌊q⌋ : ℚ) := by exact_mod_cast hge
        push_cast at this
        linarith
      omega
  · have heq : q - ⌊q⌋ = 1 / 2 := by linarith
    have hf1 : 1 ≤ ⌊q⌋ := by omega
    constructor
    · intro h0
      omega
    · intro hq
      exfalso
      have : ((1 : ℤ) : ℚ) ≤ (⌊q⌋ : ℚ) := by exact_mod_cast hf1
      push_cast at this
      linarith

/-- `round2` of a nonnegative rational is nonnegative. -/
theorem round2_nonneg (q : ℚ) (h : 0 ≤ q) : 0 ≤ round2 q := by
  unfold round2
  have := roundTiesEven_nonneg (q * 100) (by positivity)
  positivity

/-- For a nonnegative rational, `round2` gives zero exactly on
`[0, 1/200]`. -/
theorem round2_eq_zero_iff (q : ℚ) (h : 0 ≤ q) :
    round2 q = 0 ↔ q ≤ 1 / 200 := by
  unfold round2
  rw [div_eq_zero_iff]
  have h100 : ((100 : ℚ) ≠ 0) := by norm_num
  have := roundTiesEven_eq_zero_iff (q * 100) (by positivity)
  constructor
  · intro hc
    rcases hc with hc | hc
    · have : roundTiesEven (q * 100) = 0 := by exact_mod_cast hc
      have hq : q * 100 ≤ 1 / 2 := (roundTiesEven_eq_zero_iff (q * 100) (by positivity)).mp this
      linarith
    · exact absurd hc h100
  · intro hq
    left
    have hq2 : q * 100 ≤ 1 / 2 := by linarith
    have : roundTiesEven (q * 100) = 0 :=
      (roundTiesEven_eq_zero_iff (q * 100) (by positivity)).mpr hq2
    exact_mod_cast this

/-- `round2 0 = 0`. -/
theorem round2_zero : round2 0 = 0 := by
  unfold round2 roundTiesEven
  norm_num

/-- Prepending the empty string is the identity. -/
theorem empty_append_str (s : String) : "" ++ s = s := rfl

/-- Closed form of a successful streaming call: the content frames of the
extracted fragments followed by the metadata trailer. -/
theorem streamChat_none_eq (env : RuntimeEnv) (method : String)
    (chunks : List Chunk) :
    streamChat env method chunks none =
      ((chunks.filterMap extractFragment).map Frame.content) ++
        [Frame.metadata (StreamMetadata.mk env.responseId
          (if method ≠ "basic" then some method else none)
          env.timestamp (round2 env.elapsed)
          (concatFragments (chunks.filterMap extractFragment)).length)] := by
  unfold streamChat
  rw [streamLoop_eq, empty_append_str]

/-- Closed form of a failed streaming call: the content frames of the
fragments yielded before the failure, followed by the error trailer. -/
theorem streamChat_some_eq (env : RuntimeEnv) (method : String)
    (chunks : List Chunk) (e : String) :
    streamChat env method chunks (some e) =
      ((chunks.filterMap extractFragment).map Frame.content) ++
        [Frame.error ("스트리밍 중 오류가 발생했습니다: " ++ e)] := by
  unfold streamChat
  rw [streamLoop_eq]

/-! ## Claim theorems -/

/-- Claim C1: for every successful streaming call, the concatenation, in
emission order, of all content fragments emitted by the stream relay before
the terminal metadata frame is a string whose length equals the
`total_chars` field of that metadata frame. -/
theorem c1_stream_concat_length (env : RuntimeEnv) (method : String)
    (chunks : List Chunk) :
    ∃ meta : StreamMetadata,
      streamChat env method chunks none =
        ((chunks.filterMap extractFragment).map Frame.content) ++
          [Frame.metadata meta] ∧
      meta.total_chars =
        (concatFragments (chunks.filterMap extractFragment)).length :=
  ⟨_, streamChat_none_eq env method chunks, rfl⟩

/-- Claim C2: every streaming call, successful or failed, emits exactly one
terminal frame — metadata on success, error on failure, never both — it
comes after all content fragments, and no content fragment follows it. -/
theorem c2_single_terminal_frame (env : RuntimeEnv) (method : String)
    (chunks : List Chunk) (failure : Option String) :
    ∃ (pre : List Frame) (last : Frame),
      streamChat env method chunks failure = pre ++ [last] ∧
      (∀ f ∈ pre, isContentFrame f = true) ∧
      isTerminalFrame last = true ∧
      (isMetadataFrame last = true ↔ failure = none) ∧
      (streamChat env method chunks failure).countP
        (fun f => isTerminalFrame f) = 1 := by
  have hpre : ∀ f ∈ (chunks.filterMap extractFragment).map Frame.content,
      isContentFrame f = true := by
    intro f hf
    rcases List.mem_map.mp hf with ⟨s, _, rfl⟩
    rfl
  have hcount : ∀ t : Frame, isTerminalFrame t = true →
      (((chunks.filterMap extractFragment).map Frame.content) ++ [t]).countP
        (fun f => isTerminalFrame f) = 1 := by
    intro t ht
    rw [List.countP_append]
    have h0 : ((chunks.filterMap extractFragment).map Frame.content).countP
        (fun f => isTerminalFrame f) = 0 := by
      rw [List.countP_eq_zero]
      intro f hf
      rcases List.mem_map.mp hf with ⟨s, _, rfl⟩
      simp [isTerminalFrame]
    rw [h0]
    simp [List.countP_cons, ht]
  cases failure with
  | none =>
    refine ⟨(chunks.filterMap extractFragment).map Frame.content,
      Frame.metadata (StreamMetadata.mk env.responseId
        (if method ≠ "basic" then some method else none)
        env.timestamp (round2 env.elapsed)
        (concatFragments (chunks.filterMap extractFragment)).length),
      streamChat_none_eq env method chunks, hpre, rfl, by simp [isMetadataFrame], ?_⟩
    rw [streamChat_none_eq env method chunks]
    exact hcount _ rfl
  | some e =>
    refine ⟨(chunks.filterMap extractFragment).map Frame.content,
      Frame.error ("스트리밍 중 오류가 발생했습니다: " ++ e),
      streamChat_some_eq env method chunks e, hpre, rfl,
      by simp [isMetadataFrame], ?_⟩
    rw [streamChat_some_eq env method chunks e]
    exact hcount _ rfl

/-- Claim C6: the terminal frame of a successful streaming call is the
metadata trailer and its JSON object carries exactly the generated id, the
method label (omitted for method `basic`), the timestamp, the elapsed
seconds rounded to two decimals, and the character count of the accumulated
content. -/
theorem c6_metadata_trailer_fields (env : RuntimeEnv) (method : String)
    (chunks : List Chunk) :
    streamChat env method chunks none =
      ((chunks.filterMap extractFragment).map Frame.content) ++
        [Frame.metadata (StreamMetadata.mk env.responseId
          (if method = "basic" then none else some method)
          env.timestamp (round2 env.elapsed)
          (concatFragments (chunks.filterMap extractFragment)).length)] := by
  rw [streamChat_none_eq]
  by_cases hm : method = "basic" <;> simp [hm]

/-- Claim C8: on the backend stream with deltas `"He"`, `"llo"`, `""`
followed by `[DONE]`, the decoder produces exactly the three chunks, and
the relay emits exactly the fragments `"He"` and `"llo"` (the empty delta
is skipped) followed by a metadata frame with `total_chars = 5`. -/
theorem c8_end_to_end_scenario (env : RuntimeEnv) :
    decodeLines mockParse scenarioLines =
      [chunkOf "He", chunkOf "llo", chunkOf ""] ∧
    streamChat env "basic" [chunkOf "He", chunkOf "llo", chunkOf ""] none =
      [Frame.content "He", Frame.content "llo",
       Frame.metadata (StreamMetadata.mk env.responseId none env.timestamp
         (round2 env.elapsed) 5)] := by
  constructor
  · rfl
  · rw [streamChat_none_eq]
    rfl

/-- Claim C9: message composition is a pure total mapping; for method
`basic` and message `"hi"` it yields exactly the single user message, and
for each of `tuning`, `rag`, `websearch` it yields exactly two entries, a
synthesized system message followed by the user message. -/
theorem c9_message_composition (msg : String) :
    composeMessages "basic" "hi" = [ChatMessage.mk Role.user "hi"] ∧
    composeMessages "tuning" msg =
      [ChatMessage.mk Role.system
        "You are a fine-tuned model optimized for specific tasks.",
       ChatMessage.mk Role.user msg] ∧
    composeMessages "rag" msg =
      [ChatMessage.mk Role.system
        "You are a RAG-enabled assistant with access to additional context.",
       ChatMessage.mk Role.user msg] ∧
    composeMessages "websearch" msg =
      [ChatMessage.mk Role.system
        "You are an assistant with web search capabilities.",
       ChatMessage.mk Role.user msg] :=
  ⟨rfl, rfl, rfl, rfl⟩

/-- Claim C3, counterexample: a request whose model id is the empty string
does specify a model id, yet the id is not sent verbatim — the catalog is
consulted (`get_models` is called, flag `true`) and its first entry is used
instead of `""`. -/
theorem c3_counterexample_empty_id :
    resolveModel (some "") [modelM1] = Except.ok ("m1", true) ∧
    resolveModel (some "") [modelM1] ≠ Except.ok ("", false) := by
  constructor
  · rfl
  · intro h
    injection h with h2
    injection h2 with ha hb
    exact Bool.noConfusion hb

/-- Claim C3 as amended: for every request that specifies a non-empty model
id, the upstream completion request is issued with that id verbatim, with no
existence check against the catalog, and `get_models` is not called. -/
theorem c3_verbatim_model_id (m : String) (catalog : List ModelInfo)
    (h : m ≠ "") :
    resolveModel (some m) catalog = Except.ok (m, false) := by
  unfold resolveModel pyFalsyStr
  rw [if_neg]
  · rfl
  · simp [String.isEmpty_iff, h]

/-- Witness for the amended claim C3 at the id `"llama-3"` and a non-empty
catalog not containing it. -/
theorem c3_verbatim_model_id_witness :
    ("llama-3" : String) ≠ "" ∧
    resolveModel (some "llama-3") [modelM1, modelM2] =
      Except.ok ("llama-3", false) :=
  ⟨by decide, c3_verbatim_model_id "llama-3" [modelM1, modelM2] (by decide)⟩

/-- Claim C4: with no model id, an empty catalog fails with the
`No models available` error, and a non-empty catalog selects its first
entry in catalog order — in particular `"m1"` for the catalog
`[m1, m2]`. -/
theorem c4_fallback_model_resolution :
    resolveModel none ([] : List ModelInfo) =
      Except.error "No models available" ∧
    (∀ (first : ModelInfo) (rest : List ModelInfo),
      resolveModel none (first :: rest) = Except.ok (first.id, true)) ∧
    resolveModel none [modelM1, modelM2] = Except.ok ("m1", true) :=
  ⟨rfl, fun _ _ => rfl, rfl⟩

/-- Claim C10: a request whose model id is the empty string is resolved
exactly like a request with no model id — catalog fetch and first-entry
fallback — rather than sending the empty id verbatim. -/
theorem c10_empty_model_id_fallback (catalog : List ModelInfo) :
    resolveModel (some "") catalog = resolveModel none catalog := rfl

/-- Claim C5, counterexample: with 1 completion token and 1000 elapsed
seconds the response's `tokens_per_second` is 0 although elapsed time is
positive and `completion_tokens` is non-zero, so `tokens_per_second = 0`
does not hold exactly when elapsed time is non-positive or
`completion_tokens` is zero. -/
theorem c5_counterexample_small_ratio :
    handleChat envSlow "basic" dataOneToken =
      Except.ok (ChatResponse.mk "id-slow" Role.assistant "ok"
        "2026-01-01T00:00:00" none (some "m1") (some 0)) ∧
    0 < envSlow.elapsed ∧ usageTokens dataOneToken ≠ 0 := by
  refine ⟨?_, by norm_num [envSlow], by decide⟩
  unfold handleChat envSlow dataOneToken usageTokens
  norm_num [round2, roundTiesEven]

/-- Claim C5 as amended: for every successful non-streaming call,
`tokens_per_second` equals `completion_tokens / elapsed` rounded to two
decimal places when elapsed time is positive and 0 otherwise; it is always
nonnegative; and it equals 0 exactly when elapsed time is non-positive or
the ratio `completion_tokens / elapsed` is at most `1/200` (so that it
rounds to 0 — in particular whenever `completion_tokens = 0`). -/
theorem c5_tokens_per_second (env : RuntimeEnv) (method : String)
    (data : CompletionData) (resp : ChatResponse)
    (h : handleChat env method data = Except.ok resp) :
    ∃ q : ℚ,
      resp.tokens_per_second = some q ∧
      q = (if env.elapsed > 0 then
        round2 ((usageTokens data : ℚ) / env.elapsed) else 0) ∧
      0 ≤ q ∧
      (q = 0 ↔ env.elapsed ≤ 0 ∨
        (usageTokens data : ℚ) / env.elapsed ≤ 1 / 200) := by
  unfold handleChat at h
  cases hc : data.choices with
  | nil =>
    rw [hc] at h
    cases h
  | cons choice rest =>
    rw [hc] at h
    injection h with h
    subst h
    by_cases he : env.elapsed > 0
    · have hr : (0 : ℚ) ≤ (usageTokens data : ℚ) / env.elapsed :=
        div_nonneg (Nat.cast_nonneg _) (le_of_lt he)
      refine ⟨round2 ((usageTokens data : ℚ) / env.elapsed),
        by simp [he], by simp [he], round2_nonneg _ hr, ?_⟩
      rw [round2_eq_zero_iff _ hr]
      constructor
      · intro hq
        exact Or.inr hq
      · intro hq
        rcases hq with hq | hq
        · exact absurd hq (not_le.mpr he)
        · exact hq
    · refine ⟨round2 0, by simp [he], by simp [he, round2_zero], ?_, ?_⟩
      · rw [round2_zero]
      · rw [round2_zero]
        simp [le_of_not_lt he]

/-- Witness for the amended claim C5: 4 completion tokens in 2 seconds give
`tokens_per_second = 2`. -/
theorem c5_tokens_per_second_witness :
    ∃ q : ℚ,
      respFourTokens.tokens_per_second = some q ∧
      q = (if envFast.elapsed > 0 then
        round2 ((usageTokens dataFourTokens : ℚ) / envFast.elapsed) else 0) ∧
      0 ≤ q ∧
      (q = 0 ↔ envFast.elapsed ≤ 0 ∨
        (usageTokens dataFourTokens : ℚ) / envFast.elapsed ≤ 1 / 200) :=
  c5_tokens_per_second envFast "basic" dataFourTokens respFourTokens (by
    unfold handleChat envFast dataFourTokens usageTokens respFourTokens
    norm_num [round2, roundTiesEven])

/-- Claim C7: in the streaming decoder, a `data: `-prefixed line whose
payload fails to parse is skipped without raising and without producing a
chunk, a subsequent well-formed line still produces its chunk, and the
`data: [DONE]` sentinel terminates the sequence without error, ignoring any
later lines. -/
theorem c7_decoder_skips_malformed (parse : String → Option Chunk)
    (bad good doneLine : String) (c : Chunk) (rest : List String)
    (hb1 : pyStartsWith bad "data: " = true)
    (hb2 : pyStrip (bad.drop 6) ≠ "[DONE]")
    (hb3 : parse (bad.drop 6) = none)
    (hg1 : pyStartsWith good "data: " = true)
    (hg2 : pyStrip (good.drop 6) ≠ "[DONE]")
    (hg3 : parse (good.drop 6) = some c)
    (hd1 : pyStartsWith doneLine "data: " = true)
    (hd2 : pyStrip (doneLine.drop 6) = "[DONE]") :
    decodeLines parse (bad :: good :: doneLine :: rest) = [c] ∧
    decodeLines parse (bad :: rest) = decodeLines parse rest := by
  constructor <;>
    simp [decodeLines, hb1, hb2, hb3, hg1, hg2, hg3, hd1, hd2]

/-- Witness for claim C7: the malformed payload `{not-json` is skipped, the
following well-formed line still yields its chunk, and `data: [DONE]`
terminates the stream even with a further line behind it. -/
theorem c7_decoder_witness :
    decodeLines mockParse
        ("data: \x7bnot-json" :: ("data: " ++ payloadHe) ::
          "data: [DONE]" :: ["data: " ++ payloadLlo]) = [chunkOf "He"] ∧
    decodeLines mockParse ("data: \x7bnot-json" :: ["data: " ++ payloadLlo]) =
      decodeLines mockParse ["data: " ++ payloadLlo] :=
  c7_decoder_skips_malformed mockParse "data: \x7bnot-json"
    ("data: " ++ payloadHe) "data: [DONE]" (chunkOf "He")
    ["data: " ++ payloadLlo]
    (by decide) (by decide) (by decide) (by decide)
    (by decide) (by decide) (by decide) (by decide)

end MyChat
